import Mathlib

/-!
Shallow embedding of the `ktx` Go package (file `ktx.go`), centred on the
single exported function `Transaction(ctx, db, fn)`.

Modelling choices, each traceable to the source:
* A Go `error` value is `GoErr`: either a plain error (`fmt.Errorf` without
  `%w`, or any opaque error value) or a wrapping error (`fmt.Errorf` whose
  format ends in `%w`), whose message is the format text followed by the
  wrapped error's message.  `GoErr.unwrap` is Go's `errors.Unwrap`,
  `GoErr.chain` the unwrap chain inspected by `errors.Is`.
* A runner (`DBRunner` interface value) is `DBRunnerVal`: its dynamic-type
  facts are the flags `isSqlTx` (concrete type is `*sql.Tx`, the check on
  line 43), `implsTxBeginner` (satisfies the `TxBeginner` interface, the
  check on line 48) and `implsTx` (satisfies the `Tx` interface, which the
  code never checks), plus an identity.
* The database side effects are an oracle `TxEnv` fixing the outcome of the
  single possible `BeginTx`, `Rollback` and `Commit` call of one invocation.
* The callback is `fn : DBRunnerVal → FnOutcome`; an outcome is a normal
  `nil` return, a non-nil error, or a panic with a payload (formatted by
  `%v` into a string when the code interpolates it).
* `Transaction` returns its overall outcome (`TxResult`: normal return or
  propagated panic) together with the ordered list of observable calls it
  made (`Event`): the `BeginTx` call with its arguments, the callback
  invocation with the runner it received, `Rollback`, `Commit`.
-/

namespace Ktx

/-- Transaction options (`*sql.TxOptions`); the code always passes `nil`,
modelled as `none` of `Option SqlTxOptions`. -/
structure SqlTxOptions where
  isolation : Nat
  readOnly : Bool
deriving DecidableEq

/-- A Go error value: `mk` is a plain error carrying only a message;
`wrap` is `fmt.Errorf` with a trailing `%w`, carrying the format text and
the wrapped error. -/
inductive GoErr where
  | mk (msg : String)
  | wrap (fmtMsg : String) (inner : GoErr)
deriving DecidableEq

/-- The `Error()` string of a `GoErr`: for a wrapping error, the format
text followed by the wrapped error's own message (the `%w` verb sits at the
end of every format string in `ktx.go`). -/
def GoErr.text : GoErr → String
  | .mk m => m
  | .wrap m e => m ++ e.text

/-- Go's `errors.Unwrap`: a wrapping error exposes its wrapped error, a
plain error exposes nothing. -/
def GoErr.unwrap : GoErr → Option GoErr
  | .mk _ => none
  | .wrap _ e => some e

/-- The unwrap chain of an error (the error itself followed by everything
reachable through `unwrap`), as walked by `errors.Is`. -/
def GoErr.chain : GoErr → List GoErr
  | .mk m => [.mk m]
  | .wrap m e => .wrap m e :: e.chain

/-- A `DBRunner` interface value together with the dynamic-type facts the
code can query about it. -/
structure DBRunnerVal where
  isSqlTx : Bool
  implsTxBeginner : Bool
  implsTx : Bool
  id : Nat
deriving DecidableEq

/-- Outcome of invoking the callback `fn` on a runner. -/
inductive FnOutcome where
  | ok
  | err (e : GoErr)
  | panics (payload : String)
deriving DecidableEq

/-- A panic payload as re-raised by `Transaction`: the original
`recover()` value, or the error built when rollback after a panic fails. -/
inductive PanicVal where
  | raw (payload : String)
  | errVal (e : GoErr)
deriving DecidableEq

/-- Overall outcome of a `Transaction` call: a normal return carrying
`nil` (`none`) or an error, or a propagating panic. -/
inductive TxResult where
  | ret (e : Option GoErr)
  | panicked (v : PanicVal)
deriving DecidableEq

/-- Oracle fixing the database's responses for the at-most-one `BeginTx`,
`Rollback` and `Commit` call of a single `Transaction` invocation.
`beginResult` yields the id of the fresh `*sql.Tx` or an error;
`rollbackResult`/`commitResult` are `none` for `nil`. -/
structure TxEnv where
  beginResult : Except GoErr Nat
  rollbackResult : Option GoErr
  commitResult : Option GoErr

/-- Observable calls made by one `Transaction` invocation, in order. -/
inductive Event where
  | evBeginTx (ctx : Nat) (opts : Option SqlTxOptions)
  | evFn (arg : DBRunnerVal)
  | evRollback
  | evCommit
deriving DecidableEq

/-- The `TxResult` corresponding to returning the callback's result
verbatim (`return fn(tx)` on line 44; a panic propagates since no deferred
recover is installed yet). -/
def FnOutcome.toResult : FnOutcome → TxResult
  | .ok => .ret none
  | .err e => .ret (some e)
  | .panics v => .panicked (.raw v)

/-- The runner value handed to the callback after a successful `BeginTx`:
a fresh `*sql.Tx`, which satisfies the `Tx` interface but not
`TxBeginner` (`sql.Tx` has no `BeginTx` method). -/
def newTxHandle (txId : Nat) : DBRunnerVal :=
  ⟨true, false, true, txId⟩

/-- Shallow embedding of `Transaction` (`ktx.go`, lines 41–88): the
branch on `db.(*sql.Tx)`, the branch on `db.(TxBeginner)`, `BeginTx` with
error wrapping, the deferred panic handler, the rollback-on-error path and
the commit path, each producing its result and its event trace. -/
def Transaction (ctx : Nat) (db : DBRunnerVal) (fn : DBRunnerVal → FnOutcome)
    (env : TxEnv) : TxResult × List Event :=
  if db.isSqlTx then
    ((fn db).toResult, [.evFn db])
  else if !db.implsTxBeginner then
    (.ret (some (.mk "provided db does not implement TxBeginner interface")), [])
  else
    match env.beginResult with
    | .error e =>
        (.ret (some (.wrap "error starting transaction: " e)), [.evBeginTx ctx none])
    | .ok txId =>
        let tx := newTxHandle txId
        match fn tx with
        | .panics v =>
            match env.rollbackResult with
            | none =>
                (.panicked (.raw v), [.evBeginTx ctx none, .evFn tx, .evRollback])
            | some rbe =>
                (.panicked (.errVal (.wrap
                    ("unable to rollback after panic with value: " ++ v
                      ++ ", rollback error: ") rbe)),
                  [.evBeginTx ctx none, .evFn tx, .evRollback])
        | .err e =>
            match env.rollbackResult with
            | none =>
                (.ret (some e), [.evBeginTx ctx none, .evFn tx, .evRollback])
            | some rbe =>
                (.ret (some (.wrap
                    ("unable to rollback after error: " ++ e.text
                      ++ ", rollback error: ") rbe)),
                  [.evBeginTx ctx none, .evFn tx, .evRollback])
        | .ok =>
            (.ret env.commitResult, [.evBeginTx ctx none, .evFn tx, .evCommit])

/-- Does an event record a `BeginTx` call? -/
def Event.isBeginTx : Event → Bool
  | .evBeginTx _ _ => true
  | _ => false

/-- Does an event record a `Commit` call? -/
def Event.isCommit : Event → Bool
  | .evCommit => true
  | _ => false

/-- Does an event record a `Rollback` call? -/
def Event.isRollback : Event → Bool
  | .evRollback => true
  | _ => false

/-- Does an event record an invocation of the callback? -/
def Event.isFn : Event → Bool
  | .evFn _ => true
  | _ => false

/-- The per-call side-effect discipline of §4.1: at most one `BeginTx`,
never both `Commit` and `Rollback`, each at most once and only after a
`BeginTx`; the no-transaction cases perform none of the three. -/
def effectShapeOk (evs : List Event) : Prop :=
  ((evs.countP Event.isBeginTx = 0 ∧ evs.countP Event.isCommit = 0 ∧
      evs.countP Event.isRollback = 0) ∨
    (evs.countP Event.isBeginTx = 1 ∧ evs.countP Event.isRollback ≤ 1 ∧
      evs.countP Event.isCommit = 0) ∨
    (evs.countP Event.isBeginTx = 1 ∧ evs.countP Event.isCommit ≤ 1 ∧
      evs.countP Event.isRollback = 0)) ∧
  ¬(Event.evCommit ∈ evs ∧ Event.evRollback ∈ evs)

/-- Helper: every trace of `Transaction` is one of five concrete shapes,
one per control-flow path of the source. -/
theorem transaction_trace_cases (ctx : Nat) (db : DBRunnerVal)
    (fn : DBRunnerVal → FnOutcome) (env : TxEnv) :
    (Transaction ctx db fn env).2 = [Event.evFn db] ∨
    (Transaction ctx db fn env).2 = [] ∨
    (Transaction ctx db fn env).2 = [Event.evBeginTx ctx none] ∨
    (∃ txId, (Transaction ctx db fn env).2 =
      [Event.evBeginTx ctx none, Event.evFn (newTxHandle txId), Event.evRollback]) ∨
    (∃ txId, (Transaction ctx db fn env).2 =
      [Event.evBeginTx ctx none, Event.evFn (newTxHandle txId), Event.evCommit]) := by
  unfold Transaction
  by_cases h1 : db.isSqlTx
  · simp [h1]
  · by_cases h2 : db.implsTxBeginner
    · cases h3 : env.beginResult with
      | error e => simp [h1, h2, h3]
      | ok txId =>
        cases h4 : fn (newTxHandle txId) with
        | ok => simp [h1, h2, h3, h4]
        | err e =>
          cases h5 : env.rollbackResult <;> simp [h1, h2, h3, h4, h5]
        | panics v =>
          cases h5 : env.rollbackResult <;> simp [h1, h2, h3, h4, h5]
    · simp [h1, h2]

/-- C1: when the runner already is an open `*sql.Tx`, `Transaction` invokes
the callback directly on that very runner and returns the callback's result
verbatim, performing no `BeginTx`, `Commit` or `Rollback`. -/
theorem transaction_reuses_open_handle (ctx : Nat) (db : DBRunnerVal)
    (fn : DBRunnerVal → FnOutcome) (env : TxEnv) (h : db.isSqlTx = true) :
    Transaction ctx db fn env = ((fn db).toResult, [Event.evFn db]) ∧
    (∀ c o, Event.evBeginTx c o ∉ (Transaction ctx db fn env).2) ∧
    Event.evCommit ∉ (Transaction ctx db fn env).2 ∧
    Event.evRollback ∉ (Transaction ctx db fn env).2 := by
  simp [Transaction, h]

/-- C1 witness: a concrete open-transaction runner, callback returning
`nil`; the call returns `nil` with only the callback event. -/
theorem transaction_reuses_open_handle_witness :
    (⟨true, false, true, 0⟩ : DBRunnerVal).isSqlTx = true ∧
    Transaction 0 ⟨true, false, true, 0⟩ (fun _ => .ok) ⟨.ok 1, none, none⟩ =
      (TxResult.ret none, [Event.evFn ⟨true, false, true, 0⟩]) :=
  ⟨rfl, (transaction_reuses_open_handle 0 ⟨true, false, true, 0⟩ (fun _ => .ok)
    ⟨.ok 1, none, none⟩ rfl).1⟩

/-- C2: a runner that is not an open transaction and does not satisfy
`TxBeginner` yields the configuration error and the callback is never
invoked (the trace is empty). -/
theorem transaction_rejects_non_beginner (ctx : Nat) (db : DBRunnerVal)
    (fn : DBRunnerVal → FnOutcome) (env : TxEnv)
    (h1 : db.isSqlTx = false) (h2 : db.implsTxBeginner = false) :
    Transaction ctx db fn env =
      (.ret (some (.mk "provided db does not implement TxBeginner interface")), []) ∧
    ∀ a, Event.evFn a ∉ (Transaction ctx db fn env).2 := by
  simp [Transaction, h1, h2]

/-- C2 witness: a concrete runner with neither capability. -/
theorem transaction_rejects_non_beginner_witness :
    (⟨false, false, false, 0⟩ : DBRunnerVal).isSqlTx = false ∧
    (⟨false, false, false, 0⟩ : DBRunnerVal).implsTxBeginner = false ∧
    Transaction 0 ⟨false, false, false, 0⟩ (fun _ => .ok) ⟨.ok 1, none, none⟩ =
      (.ret (some (.mk "provided db does not implement TxBeginner interface")), []) :=
  ⟨rfl, rfl, (transaction_rejects_non_beginner 0 ⟨false, false, false, 0⟩
    (fun _ => .ok) ⟨.ok 1, none, none⟩ rfl rfl).1⟩

/-- C3: when `BeginTx` fails, `Transaction` returns an error wrapping the
begin failure (recoverable by unwrapping) and the callback is never
invoked. -/
theorem transaction_wraps_begin_failure (ctx : Nat) (db : DBRunnerVal)
    (fn : DBRunnerVal → FnOutcome) (env : TxEnv) (e : GoErr)
    (h1 : db.isSqlTx = false) (h2 : db.implsTxBeginner = true)
    (h3 : env.beginResult = .error e) :
    Transaction ctx db fn env =
      (.ret (some (.wrap "error starting transaction: " e)),
        [Event.evBeginTx ctx none]) ∧
    GoErr.unwrap (.wrap "error starting transaction: " e) = some e ∧
    ∀ a, Event.evFn a ∉ (Transaction ctx db fn env).2 := by
  simp [Transaction, h1, h2, h3, GoErr.unwrap]

/-- C3 witness: a concrete begin failure is wrapped and returned, with no
callback invocation. -/
theorem transaction_wraps_begin_failure_witness :
    (⟨false, true, false, 0⟩ : DBRunnerVal).isSqlTx = false ∧
    (⟨false, true, false, 0⟩ : DBRunnerVal).implsTxBeginner = true ∧
    (⟨.error (.mk "db down"), none, none⟩ : TxEnv).beginResult = .error (.mk "db down") ∧
    Transaction 0 ⟨false, true, false, 0⟩ (fun _ => .ok)
        ⟨.error (.mk "db down"), none, none⟩ =
      (.ret (some (.wrap "error starting transaction: " (.mk "db down"))),
        [Event.evBeginTx 0 none]) :=
  ⟨rfl, rfl, rfl, (transaction_wraps_begin_failure 0 ⟨false, true, false, 0⟩
    (fun _ => .ok) ⟨.error (.mk "db down"), none, none⟩ (.mk "db down")
    rfl rfl rfl).1⟩

/-- C4: when the callback returns an error after a transaction was begun,
`Rollback` is attempted and `Commit` never is; the original error is
returned unchanged when rollback succeeds, and the single combined error
(naming the original as text, wrapping the rollback error) is returned when
rollback fails. -/
theorem transaction_rolls_back_on_error (ctx : Nat) (db : DBRunnerVal)
    (fn : DBRunnerVal → FnOutcome) (env : TxEnv) (txId : Nat) (e : GoErr)
    (h1 : db.isSqlTx = false) (h2 : db.implsTxBeginner = true)
    (h3 : env.beginResult = .ok txId) (h4 : fn (newTxHandle txId) = .err e) :
    Event.evRollback ∈ (Transaction ctx db fn env).2 ∧
    Event.evCommit ∉ (Transaction ctx db fn env).2 ∧
    (env.rollbackResult = none → (Transaction ctx db fn env).1 = .ret (some e)) ∧
    (∀ rbe, env.rollbackResult = some rbe →
      (Transaction ctx db fn env).1 = .ret (some (.wrap
        ("unable to rollback after error: " ++ e.text ++ ", rollback error: ")
        rbe))) := by
  cases h5 : env.rollbackResult <;> simp [Transaction, h1, h2, h3, h4, h5]

/-- C4 witness: a concrete failing callback with successful rollback; the
callback's error comes back unchanged and rollback is in the trace. -/
theorem transaction_rolls_back_on_error_witness :
    (⟨false, true, false, 0⟩ : DBRunnerVal).isSqlTx = false ∧
    (⟨false, true, false, 0⟩ : DBRunnerVal).implsTxBeginner = true ∧
    (⟨.ok 5, none, none⟩ : TxEnv).beginResult = .ok 5 ∧
    (fun (_ : DBRunnerVal) => FnOutcome.err (.mk "bad")) (newTxHandle 5) =
      .err (.mk "bad") ∧
    (Transaction 0 ⟨false, true, false, 0⟩ (fun _ => .err (.mk "bad"))
      ⟨.ok 5, none, none⟩).1 = .ret (some (.mk "bad")) :=
  ⟨rfl, rfl, rfl, rfl, (transaction_rolls_back_on_error 0 ⟨false, true, false, 0⟩
    (fun _ => .err (.mk "bad")) ⟨.ok 5, none, none⟩ 5 (.mk "bad")
    rfl rfl rfl rfl).2.2.1 rfl⟩

/-- C5: when the callback returns `nil` after a transaction was begun,
`Commit` is called and its result (nil or its error) is returned directly;
no `Rollback` is attempted. -/
theorem transaction_commits_on_success (ctx : Nat) (db : DBRunnerVal)
    (fn : DBRunnerVal → FnOutcome) (env : TxEnv) (txId : Nat)
    (h1 : db.isSqlTx = false) (h2 : db.implsTxBeginner = true)
    (h3 : env.beginResult = .ok txId) (h4 : fn (newTxHandle txId) = .ok) :
    (Transaction ctx db fn env).1 = .ret env.commitResult ∧
    Event.evCommit ∈ (Transaction ctx db fn env).2 ∧
    Event.evRollback ∉ (Transaction ctx db fn env).2 := by
  simp [Transaction, h1, h2, h3, h4]

/-- C5 witness: a concrete succeeding callback with a failing commit; the
commit error is returned unwrapped and no rollback happens. -/
theorem transaction_commits_on_success_witness :
    (⟨false, true, false, 0⟩ : DBRunnerVal).isSqlTx = false ∧
    (⟨false, true, false, 0⟩ : DBRunnerVal).implsTxBeginner = true ∧
    (⟨.ok 5, none, some (.mk "commit failed")⟩ : TxEnv).beginResult = .ok 5 ∧
    (fun (_ : DBRunnerVal) => FnOutcome.ok) (newTxHandle 5) = .ok ∧
    (Transaction 0 ⟨false, true, false, 0⟩ (fun _ => .ok)
      ⟨.ok 5, none, some (.mk "commit failed")⟩).1 =
      .ret (some (.mk "commit failed")) :=
  ⟨rfl, rfl, rfl, rfl, (transaction_commits_on_success 0 ⟨false, true, false, 0⟩
    (fun _ => .ok) ⟨.ok 5, none, some (.mk "commit failed")⟩ 5
    rfl rfl rfl rfl).1⟩

/-- C6: when the callback panics after a transaction was begun,
`Rollback` is attempted and the call ends in a re-raised panic, never a
normal return: with the original payload unchanged when rollback succeeds,
and with the combined value (naming the payload as text, wrapping the
rollback error) when rollback fails. -/
theorem transaction_repanics_after_rollback (ctx : Nat) (db : DBRunnerVal)
    (fn : DBRunnerVal → FnOutcome) (env : TxEnv) (txId : Nat) (v : String)
    (h1 : db.isSqlTx = false) (h2 : db.implsTxBeginner = true)
    (h3 : env.beginResult = .ok txId) (h4 : fn (newTxHandle txId) = .panics v) :
    Event.evRollback ∈ (Transaction ctx db fn env).2 ∧
    (∃ pv, (Transaction ctx db fn env).1 = .panicked pv) ∧
    (env.rollbackResult = none →
      (Transaction ctx db fn env).1 = .panicked (.raw v)) ∧
    (∀ rbe, env.rollbackResult = some rbe →
      (Transaction ctx db fn env).1 = .panicked (.errVal (.wrap
        ("unable to rollback after panic with value: " ++ v
          ++ ", rollback error: ") rbe))) := by
  cases h5 : env.rollbackResult <;> simp [Transaction, h1, h2, h3, h4, h5]

/-- C6 witness: a concrete panicking callback with successful rollback;
the original payload is re-raised unchanged and rollback is in the trace. -/
theorem transaction_repanics_after_rollback_witness :
    (⟨false, true, false, 0⟩ : DBRunnerVal).isSqlTx = false ∧
    (⟨false, true, false, 0⟩ : DBRunnerVal).implsTxBeginner = true ∧
    (⟨.ok 5, none, none⟩ : TxEnv).beginResult = .ok 5 ∧
    (fun (_ : DBRunnerVal) => FnOutcome.panics "boom") (newTxHandle 5) =
      .panics "boom" ∧
    (Transaction 0 ⟨false, true, false, 0⟩ (fun _ => .panics "boom")
      ⟨.ok 5, none, none⟩).1 = .panicked (.raw "boom") :=
  ⟨rfl, rfl, rfl, rfl, (transaction_repanics_after_rollback 0
    ⟨false, true, false, 0⟩ (fun _ => .panics "boom") ⟨.ok 5, none, none⟩ 5
    "boom" rfl rfl rfl rfl).2.2.1 rfl⟩

/-- C7: every call performs one of the three allowed effect shapes: no
begin/commit/rollback at all, one `BeginTx` with at most one `Rollback`
and no `Commit`, or one `BeginTx` with at most one `Commit` and no
`Rollback`; `Commit` and `Rollback` never both occur in one call. -/
theorem transaction_effect_shape (ctx : Nat) (db : DBRunnerVal)
    (fn : DBRunnerVal → FnOutcome) (env : TxEnv) :
    effectShapeOk (Transaction ctx db fn env).2 := by
  rcases transaction_trace_cases ctx db fn env with h | h | h | ⟨t, h⟩ | ⟨t, h⟩ <;>
    simp [effectShapeOk, h, List.countP, List.countP.go,
      Event.isBeginTx, Event.isCommit, Event.isRollback]

/-- C8: whenever a call records a `BeginTx`, that call received exactly
the context value passed to `Transaction` and no transaction options. -/
theorem transaction_begin_args (ctx : Nat) (db : DBRunnerVal)
    (fn : DBRunnerVal → FnOutcome) (env : TxEnv) (c : Nat)
    (o : Option SqlTxOptions)
    (h : Event.evBeginTx c o ∈ (Transaction ctx db fn env).2) :
    c = ctx ∧ o = none := by
  rcases transaction_trace_cases ctx db fn env with hc | hc | hc | ⟨t, hc⟩ | ⟨t, hc⟩ <;>
    rw [hc] at h <;> simp_all

/-- C8 witness: a concrete call whose trace contains the `BeginTx` event
with the call's context and no options. -/
theorem transaction_begin_args_witness :
    Event.evBeginTx 7 none ∈
      (Transaction 7 ⟨false, true, false, 0⟩ (fun _ => .ok)
        ⟨.ok 5, none, none⟩).2 ∧
    (7 : Nat) = 7 ∧ (none : Option SqlTxOptions) = none :=
  ⟨by decide, transaction_begin_args 7 ⟨false, true, false, 0⟩ (fun _ => .ok)
    ⟨.ok 5, none, none⟩ 7 none (by decide)⟩

/-- C9: a runner satisfying the `Tx` interface but not of concrete type
`*sql.Tx` never takes the reuse path: lacking `BeginTx` it gets the
configuration error with no callback invocation, and having `BeginTx` a
new transaction is begun and the callback never receives the runner
itself. -/
theorem transaction_ignores_tx_interface (ctx : Nat) (db : DBRunnerVal)
    (fn : DBRunnerVal → FnOutcome) (env : TxEnv)
    (h1 : db.isSqlTx = false) (h2 : db.implsTx = true) :
    (db.implsTxBeginner = false →
      Transaction ctx db fn env =
        (.ret (some (.mk "provided db does not implement TxBeginner interface")),
          []) ∧
      ∀ a, Event.evFn a ∉ (Transaction ctx db fn env).2) ∧
    (db.implsTxBeginner = true →
      Event.evBeginTx ctx none ∈ (Transaction ctx db fn env).2 ∧
      Event.evFn db ∉ (Transaction ctx db fn env).2) := by
  constructor
  · intro h3
    simp [Transaction, h1, h3]
  · intro h3
    have hne : ∀ t : Nat, newTxHandle t ≠ db := by
      intro t hEq
      have : (newTxHandle t).isSqlTx = db.isSqlTx := by rw [hEq]
      simp [newTxHandle, h1] at this
    have hne2 : ∀ t : Nat, db ≠ newTxHandle t := fun t h => hne t h.symm
    cases h4 : env.beginResult with
    | error e => simp [Transaction, h1, h3, h4]
    | ok txId =>
      cases h5 : fn (newTxHandle txId) with
      | ok => simp [Transaction, h1, h3, h4, h5, hne txId, hne2 txId]
      | err e =>
        cases h6 : env.rollbackResult <;>
          simp [Transaction, h1, h3, h4, h5, h6, hne txId, hne2 txId]
      | panics v =>
        cases h6 : env.rollbackResult <;>
          simp [Transaction, h1, h3, h4, h5, h6, hne txId, hne2 txId]

/-- C9 witness: a concrete runner implementing the `Tx` interface but not
being a `*sql.Tx`, lacking `BeginTx`: the configuration error comes back. -/
theorem transaction_ignores_tx_interface_witness :
    (⟨false, false, true, 3⟩ : DBRunnerVal).isSqlTx = false ∧
    (⟨false, false, true, 3⟩ : DBRunnerVal).implsTx = true ∧
    Transaction 0 ⟨false, false, true, 3⟩ (fun _ => .ok) ⟨.ok 1, none, none⟩ =
      (.ret (some (.mk "provided db does not implement TxBeginner interface")),
        []) :=
  ⟨rfl, rfl, ((transaction_ignores_tx_interface 0 ⟨false, false, true, 3⟩
    (fun _ => .ok) ⟨.ok 1, none, none⟩ rfl rfl).1 rfl).1⟩

/-- C10: in both combined-failure cases the produced error wraps exactly
the rollback error: its unwrap is the rollback error, its unwrap chain is
itself followed by the rollback error's chain (nothing else was added to
the chain), and the original callback error or panic payload appears only
inside its message text. -/
theorem transaction_combined_error_wraps_rollback (ctx : Nat)
    (db : DBRunnerVal) (fn : DBRunnerVal → FnOutcome) (env : TxEnv)
    (txId : Nat) (rbe : GoErr)
    (h1 : db.isSqlTx = false) (h2 : db.implsTxBeginner = true)
    (h3 : env.beginResult = .ok txId) (h4 : env.rollbackResult = some rbe) :
    (∀ e, fn (newTxHandle txId) = .err e →
      (Transaction ctx db fn env).1 = .ret (some (.wrap
        ("unable to rollback after error: " ++ e.text ++ ", rollback error: ")
        rbe)) ∧
      GoErr.unwrap (.wrap
        ("unable to rollback after error: " ++ e.text ++ ", rollback error: ")
        rbe) = some rbe ∧
      GoErr.chain (.wrap
        ("unable to rollback after error: " ++ e.text ++ ", rollback error: ")
        rbe) = .wrap
          ("unable to rollback after error: " ++ e.text ++ ", rollback error: ")
          rbe :: rbe.chain ∧
      GoErr.text (.wrap
        ("unable to rollback after error: " ++ e.text ++ ", rollback error: ")
        rbe) =
        ("unable to rollback after error: " ++ e.text ++ ", rollback error: ")
          ++ rbe.text) ∧
    (∀ v, fn (newTxHandle txId) = .panics v →
      (Transaction ctx db fn env).1 = .panicked (.errVal (.wrap
        ("unable to rollback after panic with value: " ++ v
          ++ ", rollback error: ") rbe)) ∧
      GoErr.unwrap (.wrap
        ("unable to rollback after panic with value: " ++ v
          ++ ", rollback error: ") rbe) = some rbe ∧
      GoErr.chain (.wrap
        ("unable to rollback after panic with value: " ++ v
          ++ ", rollback error: ") rbe) = .wrap
          ("unable to rollback after panic with value: " ++ v
            ++ ", rollback error: ") rbe :: rbe.chain ∧
      GoErr.text (.wrap
        ("unable to rollback after panic with value: " ++ v
          ++ ", rollback error: ") rbe) =
        ("unable to rollback after panic with value: " ++ v
          ++ ", rollback error: ") ++ rbe.text) := by
  constructor
  · intro e h5
    refine ⟨?_, rfl, ?_, rfl⟩
    · simp [Transaction, h1, h2, h3, h4, h5]
    · simp [GoErr.chain]
  · intro v h5
    refine ⟨?_, rfl, ?_, rfl⟩
    · simp [Transaction, h1, h2, h3, h4, h5]
    · simp [GoErr.chain]

/-- C10 witness: concrete failing callback and failing rollback; the
combined error unwraps to the rollback error. -/
theorem transaction_combined_error_wraps_rollback_witness :
    (⟨false, true, false, 0⟩ : DBRunnerVal).isSqlTx = false ∧
    (⟨false, true, false, 0⟩ : DBRunnerVal).implsTxBeginner = true ∧
    (⟨.ok 5, some (.mk "rb fail"), none⟩ : TxEnv).beginResult = .ok 5 ∧
    (⟨.ok 5, some (.mk "rb fail"), none⟩ : TxEnv).rollbackResult =
      some (.mk "rb fail") ∧
    (fun (_ : DBRunnerVal) => FnOutcome.err (.mk "bad")) (newTxHandle 5) =
      .err (.mk "bad") ∧
    GoErr.unwrap (.wrap
      ("unable to rollback after error: " ++ (GoErr.mk "bad").text
        ++ ", rollback error: ") (.mk "rb fail")) = some (.mk "rb fail") :=
  ⟨rfl, rfl, rfl, rfl, rfl, ((transaction_combined_error_wraps_rollback 0
    ⟨false, true, false, 0⟩ (fun _ => .err (.mk "bad"))
    ⟨.ok 5, some (.mk "rb fail"), none⟩ 5 (.mk "rb fail")
    rfl rfl rfl rfl).1 (.mk "bad") rfl).2.1⟩

end Ktx
